import Mathlib

/-!
Custom pages bindings (`cpage.go`).

A shallow embedding of the three resource-binding methods of `cpage.go`
(`ListCustomPages`, `CustomPageDetails`, `UpdateCustomPage`) together with the
data types they use.

Modelling conventions.

* Go `string` is `String`, `[]byte` is `List UInt8`, a Go slice `[]T` is the
  `List` of its elements (a nil slice and an empty slice both are `[]`).
* A Go `error` value is `Option Error`: `none` is `nil`.
* `api.makeRequest` is stateful code that lives outside `cpage.go`; it is a
  field of `API`, a function on an explicit state `σ`, and every result below
  holds for every such function.
* `json.Unmarshal(res, &r)` is a pure function of the bytes and of the value
  `r` it is handed; it returns the (possibly half-filled) value together
  with the error. It is a field of `Deps`, one per envelope type.
* `errMakeRequestError` and `errUnmarshalError` are package constants declared
  outside `cpage.go`; they are fields of `Deps`.
-/

namespace Cloudflare

/-- The type `time.Time`; the methods of `cpage.go` only store and return it.
The zero value is the default. -/
structure Time where
  sec : Int := 0
  nsec : Nat := 0
deriving DecidableEq, Repr

/-- The byte slices returned by the request helper. -/
abbrev Bytes := List UInt8

/-- An error value: either an error produced by a collaborator (transport, decoder), or an
error produced by `errors.Wrap`, which keeps its cause and the message it was
wrapped with. -/
inductive Error where
  | external (msg : String) : Error
  | withMessage (cause : Error) (message : String) : Error
deriving DecidableEq, Repr

/-- The function `errors.Wrap(err, message)`: nil for a nil error, otherwise an
error whose cause is `err`, annotated with `message`. -/
def errors.Wrap (err : Option Error) (message : String) : Option Error :=
  match err with
  | none => none
  | some e => some (Error.withMessage e message)

/-- The struct `CustomPage`; the default is the Go zero value `CustomPage{}`. -/
structure CustomPage where
  URL : String := ""
  State : String := ""
  Description : Bool := false
  PreviewTarget : String := ""
  RequiredTokens : List String := []
  CreatedOn : Time := {}
  ModifiedOn : Time := {}
deriving DecidableEq, Repr

/-- The struct `CustomPagesResponse`: the envelope around a sequence of pages. -/
structure CustomPagesResponse where
  Success : Bool := false
  Errors : List String := []
  Messages : List String := []
  Result : List CustomPage := []
deriving DecidableEq, Repr

/-- The struct `CustomPageDetailResponse`: the envelope around a single page. -/
structure CustomPageDetailResponse where
  Success : Bool := false
  Errors : List String := []
  Messages : List String := []
  Result : CustomPage := {}
deriving DecidableEq, Repr

/-- The receiver `api *API` as seen from `cpage.go`: the shared request helper
`makeRequest(method, uri, params)`, run on a state `σ` (connection, clock,
remote service). The third argument is `nil` (`none`) or a `CustomPage`. It
returns the response bytes and the error. -/
structure API (σ : Type) where
  makeRequest : String → String → Option CustomPage → σ → (Bytes × Option Error) × σ

/-- Package-level collaborators of `cpage.go`: `json.Unmarshal` at the two
envelope types (bytes and the value pointed to, giving the updated value and the
error) and the two message constants used with `errors.Wrap`. -/
structure Deps where
  UnmarshalPages : Bytes → CustomPagesResponse → CustomPagesResponse × Option Error
  UnmarshalDetail : Bytes → CustomPageDetailResponse → CustomPageDetailResponse × Option Error
  errMakeRequestError : String
  errUnmarshalError : String

/-- The method `ListCustomPages(zoneID)` (lines 40-52). -/
def ListCustomPages {σ : Type} (api : API σ) (d : Deps) (zoneID : String) (s : σ) :
    (List CustomPage × Option Error) × σ :=
  let uri := "/zones/" ++ zoneID ++ "/custom_pages"
  let ((res, err), s1) := api.makeRequest "GET" uri none s
  if err ≠ none then
    (([], errors.Wrap err d.errMakeRequestError), s1)
  else
    let r : CustomPagesResponse := {}
    let (r, err) := d.UnmarshalPages res r
    if err ≠ none then
      (([], errors.Wrap err d.errUnmarshalError), s1)
    else
      ((r.Result, none), s1)

/-- The method `CustomPageDetails(zoneID, pageID)` (lines 58-69). -/
def CustomPageDetails {σ : Type} (api : API σ) (d : Deps) (zoneID pageID : String) (s : σ) :
    (CustomPage × Option Error) × σ :=
  let uri := "/zones/" ++ zoneID ++ "/custom_pages/" ++ pageID
  let ((res, err), s1) := api.makeRequest "GET" uri none s
  if err ≠ none then
    (({}, errors.Wrap err d.errMakeRequestError), s1)
  else
    let r : CustomPageDetailResponse := {}
    let (r, err) := d.UnmarshalDetail res r
    if err ≠ none then
      (({}, errors.Wrap err d.errUnmarshalError), s1)
    else
      ((r.Result, none), s1)

/-- The method `UpdateCustomPage(zoneID, pageID, page)` (lines 75-86). -/
def UpdateCustomPage {σ : Type} (api : API σ) (d : Deps) (zoneID pageID : String)
    (page : CustomPage) (s : σ) : (CustomPage × Option Error) × σ :=
  let uri := "/zones/" ++ zoneID ++ "/custom_pages/" ++ pageID
  let ((res, err), s1) := api.makeRequest "PUT" uri (some page) s
  if err ≠ none then
    (({}, errors.Wrap err d.errMakeRequestError), s1)
  else
    let r : CustomPageDetailResponse := {}
    let (r, err) := d.UnmarshalDetail res r
    if err ≠ none then
      (({}, errors.Wrap err d.errUnmarshalError), s1)
    else
      ((r.Result, none), s1)

/-- One invocation of the request helper: its three arguments. -/
structure Call where
  verb : String
  uri : String
  body : Option CustomPage
deriving DecidableEq, Repr

/-- The same receiver with a spy on the request helper: every invocation is
appended to a log carried next to the state, and is otherwise passed through
unchanged. -/
def API.recording {σ : Type} (api : API σ) : API (σ × List Call) where
  makeRequest := fun verb uri body st =>
    let (out, s1) := api.makeRequest verb uri body st.1
    (out, (s1, st.2 ++ [{ verb := verb, uri := uri, body := body }]))

/-- A request helper that always fails with the same error. -/
def failingAPI : API Unit where
  makeRequest := fun _ _ _ s => (([], some (Error.external "connection refused")), s)

/-- A request helper that always succeeds with the same two bytes. -/
def okAPI : API Unit where
  makeRequest := fun _ _ _ s => (([123, 125], none), s)

/-- A sample page. -/
def samplePage : CustomPage :=
  { URL := "https://example.com/500.html", State := "customized", Description := true,
    PreviewTarget := "preview", RequiredTokens := ["::CLIENT_IP::", "::RAY_ID::"] }

/-- A second sample page. -/
def otherPage : CustomPage :=
  { URL := "https://example.com/1000.html", State := "default" }

/-- Decoders that always succeed, with envelopes reporting an API-level failure. -/
def okDeps : Deps where
  UnmarshalPages := fun _ r =>
    ({ r with Success := false, Errors := ["denied"], Result := [samplePage, otherPage] }, none)
  UnmarshalDetail := fun _ r =>
    ({ r with Success := false, Errors := ["denied"], Result := samplePage }, none)
  errMakeRequestError := "error from makeRequest"
  errUnmarshalError := "error unmarshalling the JSON response"

/-- Decoders that always succeed with the same `Result` values as `okDeps`, in envelopes
reporting success, and with other message constants. -/
def cleanDeps : Deps where
  UnmarshalPages := fun _ r =>
    ({ r with Success := true, Messages := ["ok"], Result := [samplePage, otherPage] }, none)
  UnmarshalDetail := fun _ r =>
    ({ r with Success := true, Messages := ["ok"], Result := samplePage }, none)
  errMakeRequestError := "request failed"
  errUnmarshalError := "decoding failed"

/-- Decoders that fail after having filled part of the value they were handed. -/
def badDeps : Deps where
  UnmarshalPages := fun _ r =>
    ({ r with Result := [samplePage] }, some (Error.external "unexpected end of JSON input"))
  UnmarshalDetail := fun _ r =>
    ({ r with Result := samplePage }, some (Error.external "unexpected end of JSON input"))
  errMakeRequestError := "error from makeRequest"
  errUnmarshalError := "error unmarshalling the JSON response"

/-! ## Unfolding lemmas -/

theorem ListCustomPages_eq {σ : Type} (api : API σ) (d : Deps) (zoneID : String) (s : σ) :
    ListCustomPages api d zoneID s =
      match (api.makeRequest "GET" ("/zones/" ++ zoneID ++ "/custom_pages") none s).1.2 with
      | some e =>
        (([], some (Error.withMessage e d.errMakeRequestError)),
          (api.makeRequest "GET" ("/zones/" ++ zoneID ++ "/custom_pages") none s).2)
      | none =>
        match (d.UnmarshalPages
            (api.makeRequest "GET" ("/zones/" ++ zoneID ++ "/custom_pages") none s).1.1 {}).2 with
        | some e =>
          (([], some (Error.withMessage e d.errUnmarshalError)),
            (api.makeRequest "GET" ("/zones/" ++ zoneID ++ "/custom_pages") none s).2)
        | none =>
          (((d.UnmarshalPages
              (api.makeRequest "GET" ("/zones/" ++ zoneID ++ "/custom_pages") none s).1.1 {}).1.Result,
            none),
            (api.makeRequest "GET" ("/zones/" ++ zoneID ++ "/custom_pages") none s).2) := by
  obtain ⟨mk⟩ := api
  obtain ⟨up, ud, t1, t2⟩ := d
  simp only [ListCustomPages]
  generalize mk "GET" ("/zones/" ++ zoneID ++ "/custom_pages") none s = out
  obtain ⟨⟨res, err⟩, s1⟩ := out
  cases err with
  | some e => simp [errors.Wrap]
  | none =>
    simp only [ne_eq, not_true_eq_false, if_false]
    generalize up res {} = dec
    obtain ⟨r, err2⟩ := dec
    cases err2 <;> simp [errors.Wrap]

theorem CustomPageDetails_eq {σ : Type} (api : API σ) (d : Deps) (zoneID pageID : String) (s : σ) :
    CustomPageDetails api d zoneID pageID s =
      match (api.makeRequest "GET" ("/zones/" ++ zoneID ++ "/custom_pages/" ++ pageID) none s).1.2 with
      | some e =>
        (({}, some (Error.withMessage e d.errMakeRequestError)),
          (api.makeRequest "GET" ("/zones/" ++ zoneID ++ "/custom_pages/" ++ pageID) none s).2)
      | none =>
        match (d.UnmarshalDetail
            (api.makeRequest "GET" ("/zones/" ++ zoneID ++ "/custom_pages/" ++ pageID) none s).1.1
            {}).2 with
        | some e =>
          (({}, some (Error.withMessage e d.errUnmarshalError)),
            (api.makeRequest "GET" ("/zones/" ++ zoneID ++ "/custom_pages/" ++ pageID) none s).2)
        | none =>
          (((d.UnmarshalDetail
              (api.makeRequest "GET" ("/zones/" ++ zoneID ++ "/custom_pages/" ++ pageID) none s).1.1
              {}).1.Result,
            none),
            (api.makeRequest "GET" ("/zones/" ++ zoneID ++ "/custom_pages/" ++ pageID) none s).2) := by
  obtain ⟨mk⟩ := api
  obtain ⟨up, ud, t1, t2⟩ := d
  simp only [CustomPageDetails]
  generalize mk "GET" ("/zones/" ++ zoneID ++ "/custom_pages/" ++ pageID) none s = out
  obtain ⟨⟨res, err⟩, s1⟩ := out
  cases err with
  | some e => simp [errors.Wrap]
  | none =>
    simp only [ne_eq, not_true_eq_false, if_false]
    generalize ud res {} = dec
    obtain ⟨r, err2⟩ := dec
    cases err2 <;> simp [errors.Wrap]

theorem UpdateCustomPage_eq {σ : Type} (api : API σ) (d : Deps) (zoneID pageID : String)
    (page : CustomPage) (s : σ) :
    UpdateCustomPage api d zoneID pageID page s =
      match (api.makeRequest "PUT" ("/zones/" ++ zoneID ++ "/custom_pages/" ++ pageID)
          (some page) s).1.2 with
      | some e =>
        (({}, some (Error.withMessage e d.errMakeRequestError)),
          (api.makeRequest "PUT" ("/zones/" ++ zoneID ++ "/custom_pages/" ++ pageID)
            (some page) s).2)
      | none =>
        match (d.UnmarshalDetail
            (api.makeRequest "PUT" ("/zones/" ++ zoneID ++ "/custom_pages/" ++ pageID)
              (some page) s).1.1 {}).2 with
        | some e =>
          (({}, some (Error.withMessage e d.errUnmarshalError)),
            (api.makeRequest "PUT" ("/zones/" ++ zoneID ++ "/custom_pages/" ++ pageID)
              (some page) s).2)
        | none =>
          (((d.UnmarshalDetail
              (api.makeRequest "PUT" ("/zones/" ++ zoneID ++ "/custom_pages/" ++ pageID)
                (some page) s).1.1 {}).1.Result,
            none),
            (api.makeRequest "PUT" ("/zones/" ++ zoneID ++ "/custom_pages/" ++ pageID)
              (some page) s).2) := by
  obtain ⟨mk⟩ := api
  obtain ⟨up, ud, t1, t2⟩ := d
  simp only [UpdateCustomPage]
  generalize mk "PUT" ("/zones/" ++ zoneID ++ "/custom_pages/" ++ pageID) (some page) s = out
  obtain ⟨⟨res, err⟩, s1⟩ := out
  cases err with
  | some e => simp [errors.Wrap]
  | none =>
    simp only [ne_eq, not_true_eq_false, if_false]
    generalize ud res {} = dec
    obtain ⟨r, err2⟩ := dec
    cases err2 <;> simp [errors.Wrap]

theorem recording_makeRequest {σ : Type} (api : API σ) (verb uri : String)
    (body : Option CustomPage) (s : σ) (log : List Call) :
    api.recording.makeRequest verb uri body (s, log) =
      ((api.makeRequest verb uri body s).1,
        ((api.makeRequest verb uri body s).2,
          log ++ [{ verb := verb, uri := uri, body := body }])) := rfl

theorem ListCustomPages_log {σ : Type} (api : API σ) (d : Deps) (zoneID : String)
    (s : σ) (log : List Call) :
    (ListCustomPages api.recording d zoneID (s, log)).2.2 =
      log ++ [{ verb := "GET", uri := "/zones/" ++ zoneID ++ "/custom_pages", body := none }] := by
  rw [ListCustomPages_eq]
  simp only [recording_makeRequest]
  split <;> [skip; split] <;> rfl

theorem CustomPageDetails_log {σ : Type} (api : API σ) (d : Deps) (zoneID pageID : String)
    (s : σ) (log : List Call) :
    (CustomPageDetails api.recording d zoneID pageID (s, log)).2.2 =
      log ++ [{ verb := "GET", uri := "/zones/" ++ zoneID ++ "/custom_pages/" ++ pageID,
                body := none }] := by
  rw [CustomPageDetails_eq]
  simp only [recording_makeRequest]
  split <;> [skip; split] <;> rfl

theorem UpdateCustomPage_log {σ : Type} (api : API σ) (d : Deps) (zoneID pageID : String)
    (page : CustomPage) (s : σ) (log : List Call) :
    (UpdateCustomPage api.recording d zoneID pageID page (s, log)).2.2 =
      log ++ [{ verb := "PUT", uri := "/zones/" ++ zoneID ++ "/custom_pages/" ++ pageID,
                body := some page }] := by
  rw [UpdateCustomPage_eq]
  simp only [recording_makeRequest]
  split <;> [skip; split] <;> rfl

/-! ## The request that each method makes -/

/-- C1: `ListCustomPages(zoneID)` run against a spied request helper leaves the log extended
by exactly one entry, the call `("GET", "/zones/" ++ zoneID ++ "/custom_pages", nil)`, whatever
that call returns; the state it ends in is the one this single call produced, and the value
returned is the one returned without the spy. -/
theorem ListCustomPages_one_request {σ : Type} (api : API σ) (d : Deps) (zoneID : String)
    (s : σ) (log : List Call) :
    (ListCustomPages api.recording d zoneID (s, log)).2.2 =
        log ++ [{ verb := "GET", uri := "/zones/" ++ zoneID ++ "/custom_pages", body := none }] ∧
      (ListCustomPages api.recording d zoneID (s, log)).2.1 =
        (api.makeRequest "GET" ("/zones/" ++ zoneID ++ "/custom_pages") none s).2 ∧
      (ListCustomPages api.recording d zoneID (s, log)).1 = (ListCustomPages api d zoneID s).1 := by
  rw [ListCustomPages_eq, ListCustomPages_eq]
  simp only [recording_makeRequest]
  split <;> [skip; split] <;> simp

/-- C2: `CustomPageDetails(zoneID, pageID)` run against a spied request helper leaves the log
extended by exactly one entry, the call
`("GET", "/zones/" ++ zoneID ++ "/custom_pages/" ++ pageID, nil)`; the state it ends in is the one
this single call produced, and the value returned is the one returned without the spy. -/
theorem CustomPageDetails_one_request {σ : Type} (api : API σ) (d : Deps)
    (zoneID pageID : String) (s : σ) (log : List Call) :
    (CustomPageDetails api.recording d zoneID pageID (s, log)).2.2 =
        log ++ [{ verb := "GET", uri := "/zones/" ++ zoneID ++ "/custom_pages/" ++ pageID,
                  body := none }] ∧
      (CustomPageDetails api.recording d zoneID pageID (s, log)).2.1 =
        (api.makeRequest "GET" ("/zones/" ++ zoneID ++ "/custom_pages/" ++ pageID) none s).2 ∧
      (CustomPageDetails api.recording d zoneID pageID (s, log)).1 =
        (CustomPageDetails api d zoneID pageID s).1 := by
  rw [CustomPageDetails_eq, CustomPageDetails_eq]
  simp only [recording_makeRequest]
  split <;> [skip; split] <;> simp

/-- C3: `UpdateCustomPage(zoneID, pageID, page)` run against a spied request helper leaves the
log extended by exactly one entry, the call
`("PUT", "/zones/" ++ zoneID ++ "/custom_pages/" ++ pageID, page)` whose body is the page given,
unchanged; the state it ends in is the one this single call produced, and the value returned is
the one returned without the spy. -/
theorem UpdateCustomPage_one_request {σ : Type} (api : API σ) (d : Deps)
    (zoneID pageID : String) (page : CustomPage) (s : σ) (log : List Call) :
    (UpdateCustomPage api.recording d zoneID pageID page (s, log)).2.2 =
        log ++ [{ verb := "PUT", uri := "/zones/" ++ zoneID ++ "/custom_pages/" ++ pageID,
                  body := some page }] ∧
      (UpdateCustomPage api.recording d zoneID pageID page (s, log)).2.1 =
        (api.makeRequest "PUT" ("/zones/" ++ zoneID ++ "/custom_pages/" ++ pageID)
          (some page) s).2 ∧
      (UpdateCustomPage api.recording d zoneID pageID page (s, log)).1 =
        (UpdateCustomPage api d zoneID pageID page s).1 := by
  rw [UpdateCustomPage_eq, UpdateCustomPage_eq]
  simp only [recording_makeRequest]
  split <;> [skip; split] <;> simp

/-! ## Error paths -/

/-- C4: when the request helper returns a non-nil error `e`, each of the three methods
returns the empty result (the empty list, the zero `CustomPage`) together with `e` wrapped as
cause under `errMakeRequestError`; the outcome is the same whatever the decoders are, so no
decoding takes part in it. -/
theorem request_failure_is_wrapped {σ : Type} (api : API σ) (d : Deps) (zoneID pageID : String)
    (page : CustomPage) (s : σ) (e : Error) :
    ((api.makeRequest "GET" ("/zones/" ++ zoneID ++ "/custom_pages") none s).1.2 = some e →
      ∀ d' : Deps, d'.errMakeRequestError = d.errMakeRequestError →
        ListCustomPages api d' zoneID s =
          (([], some (Error.withMessage e d.errMakeRequestError)),
            (api.makeRequest "GET" ("/zones/" ++ zoneID ++ "/custom_pages") none s).2)) ∧
    ((api.makeRequest "GET" ("/zones/" ++ zoneID ++ "/custom_pages/" ++ pageID) none s).1.2
        = some e →
      ∀ d' : Deps, d'.errMakeRequestError = d.errMakeRequestError →
        CustomPageDetails api d' zoneID pageID s =
          (({}, some (Error.withMessage e d.errMakeRequestError)),
            (api.makeRequest "GET" ("/zones/" ++ zoneID ++ "/custom_pages/" ++ pageID) none s).2)) ∧
    ((api.makeRequest "PUT" ("/zones/" ++ zoneID ++ "/custom_pages/" ++ pageID) (some page) s).1.2
        = some e →
      ∀ d' : Deps, d'.errMakeRequestError = d.errMakeRequestError →
        UpdateCustomPage api d' zoneID pageID page s =
          (({}, some (Error.withMessage e d.errMakeRequestError)),
            (api.makeRequest "PUT" ("/zones/" ++ zoneID ++ "/custom_pages/" ++ pageID)
              (some page) s).2)) := by
  refine ⟨fun h d' hd => ?_, fun h d' hd => ?_, fun h d' hd => ?_⟩
  · rw [ListCustomPages_eq]; simp only [h, hd]
  · rw [CustomPageDetails_eq]; simp only [h, hd]
  · rw [UpdateCustomPage_eq]; simp only [h, hd]

/-- C4, at a request helper that always fails: the three methods return the empty result and
the wrapped error, with decoders that would have succeeded. -/
theorem request_failure_is_wrapped_witness :
    (ListCustomPages failingAPI okDeps "z1" () =
        (([], some (Error.withMessage (Error.external "connection refused")
          "error from makeRequest")), ())) ∧
    (CustomPageDetails failingAPI okDeps "z1" "p1" () =
        (({}, some (Error.withMessage (Error.external "connection refused")
          "error from makeRequest")), ())) ∧
    (UpdateCustomPage failingAPI okDeps "z1" "p1" samplePage () =
        (({}, some (Error.withMessage (Error.external "connection refused")
          "error from makeRequest")), ())) :=
  ⟨(request_failure_is_wrapped failingAPI badDeps "z1" "p1" samplePage ()
      (Error.external "connection refused")).1 rfl okDeps rfl,
   (request_failure_is_wrapped failingAPI badDeps "z1" "p1" samplePage ()
      (Error.external "connection refused")).2.1 rfl okDeps rfl,
   (request_failure_is_wrapped failingAPI badDeps "z1" "p1" samplePage ()
      (Error.external "connection refused")).2.2 rfl okDeps rfl⟩

/-- C5: when the request helper succeeds and decoding its bytes fails with error `e`, each of
the three methods returns the empty result (the empty list, the zero `CustomPage`) together
with `e` wrapped as cause under `errUnmarshalError`; whatever the decoder had written into the
envelope before failing is not returned. -/
theorem decode_failure_is_wrapped {σ : Type} (api : API σ) (d : Deps) (zoneID pageID : String)
    (page : CustomPage) (s : σ) (e : Error) :
    ((api.makeRequest "GET" ("/zones/" ++ zoneID ++ "/custom_pages") none s).1.2 = none →
      (d.UnmarshalPages
        (api.makeRequest "GET" ("/zones/" ++ zoneID ++ "/custom_pages") none s).1.1 {}).2
        = some e →
      ListCustomPages api d zoneID s =
        (([], some (Error.withMessage e d.errUnmarshalError)),
          (api.makeRequest "GET" ("/zones/" ++ zoneID ++ "/custom_pages") none s).2)) ∧
    ((api.makeRequest "GET" ("/zones/" ++ zoneID ++ "/custom_pages/" ++ pageID) none s).1.2
        = none →
      (d.UnmarshalDetail
        (api.makeRequest "GET" ("/zones/" ++ zoneID ++ "/custom_pages/" ++ pageID) none s).1.1
        {}).2 = some e →
      CustomPageDetails api d zoneID pageID s =
        (({}, some (Error.withMessage e d.errUnmarshalError)),
          (api.makeRequest "GET" ("/zones/" ++ zoneID ++ "/custom_pages/" ++ pageID) none s).2)) ∧
    ((api.makeRequest "PUT" ("/zones/" ++ zoneID ++ "/custom_pages/" ++ pageID) (some page) s).1.2
        = none →
      (d.UnmarshalDetail
        (api.makeRequest "PUT" ("/zones/" ++ zoneID ++ "/custom_pages/" ++ pageID)
          (some page) s).1.1 {}).2 = some e →
      UpdateCustomPage api d zoneID pageID page s =
        (({}, some (Error.withMessage e d.errUnmarshalError)),
          (api.makeRequest "PUT" ("/zones/" ++ zoneID ++ "/custom_pages/" ++ pageID)
            (some page) s).2)) := by
  refine ⟨fun h h2 => ?_, fun h h2 => ?_, fun h h2 => ?_⟩
  · rw [ListCustomPages_eq]; simp only [h, h2]
  · rw [CustomPageDetails_eq]; simp only [h, h2]
  · rw [UpdateCustomPage_eq]; simp only [h, h2]

/-- C5, at decoders that fill in `Result` and then fail: the value they wrote is dropped and
the wrapped decoding error is returned. -/
theorem decode_failure_is_wrapped_witness :
    ((badDeps.UnmarshalPages [123, 125] {}).1.Result = [samplePage] ∧
      ListCustomPages okAPI badDeps "z1" () =
        (([], some (Error.withMessage (Error.external "unexpected end of JSON input")
          "error unmarshalling the JSON response")), ())) ∧
    ((badDeps.UnmarshalDetail [123, 125] {}).1.Result = samplePage ∧
      CustomPageDetails okAPI badDeps "z1" "p1" () =
        (({}, some (Error.withMessage (Error.external "unexpected end of JSON input")
          "error unmarshalling the JSON response")), ())) ∧
    (UpdateCustomPage okAPI badDeps "z1" "p1" otherPage () =
        (({}, some (Error.withMessage (Error.external "unexpected end of JSON input")
          "error unmarshalling the JSON response")), ())) :=
  ⟨⟨rfl, (decode_failure_is_wrapped okAPI badDeps "z1" "p1" otherPage ()
      (Error.external "unexpected end of JSON input")).1 rfl rfl⟩,
   ⟨rfl, (decode_failure_is_wrapped okAPI badDeps "z1" "p1" otherPage ()
      (Error.external "unexpected end of JSON input")).2.1 rfl rfl⟩,
   (decode_failure_is_wrapped okAPI badDeps "z1" "p1" otherPage ()
      (Error.external "unexpected end of JSON input")).2.2 rfl rfl⟩

/-! ## Success path -/

/-- C6: each of the three methods returns a non-nil error exactly when the request helper
returns an error or the decoder does; when neither does, it returns the `Result` field of the
decoded envelope with a nil error. For `ListCustomPages` the returned list is equal to the
decoded `Result` list, so it has the same elements in the same order and the same length. -/
theorem error_iff_failure {σ : Type} (api : API σ) (d : Deps) (zoneID pageID : String)
    (page : CustomPage) (s : σ) :
    (((ListCustomPages api d zoneID s).1.2 ≠ none ↔
        ((api.makeRequest "GET" ("/zones/" ++ zoneID ++ "/custom_pages") none s).1.2 ≠ none ∨
          (d.UnmarshalPages
            (api.makeRequest "GET" ("/zones/" ++ zoneID ++ "/custom_pages") none s).1.1 {}).2
            ≠ none)) ∧
      ((api.makeRequest "GET" ("/zones/" ++ zoneID ++ "/custom_pages") none s).1.2 = none →
        (d.UnmarshalPages
          (api.makeRequest "GET" ("/zones/" ++ zoneID ++ "/custom_pages") none s).1.1 {}).2
          = none →
        (ListCustomPages api d zoneID s).1 =
          ((d.UnmarshalPages
            (api.makeRequest "GET" ("/zones/" ++ zoneID ++ "/custom_pages") none s).1.1
            {}).1.Result, none))) ∧
    (((CustomPageDetails api d zoneID pageID s).1.2 ≠ none ↔
        ((api.makeRequest "GET" ("/zones/" ++ zoneID ++ "/custom_pages/" ++ pageID) none s).1.2
            ≠ none ∨
          (d.UnmarshalDetail
            (api.makeRequest "GET" ("/zones/" ++ zoneID ++ "/custom_pages/" ++ pageID)
              none s).1.1 {}).2 ≠ none)) ∧
      ((api.makeRequest "GET" ("/zones/" ++ zoneID ++ "/custom_pages/" ++ pageID) none s).1.2
          = none →
        (d.UnmarshalDetail
          (api.makeRequest "GET" ("/zones/" ++ zoneID ++ "/custom_pages/" ++ pageID)
            none s).1.1 {}).2 = none →
        (CustomPageDetails api d zoneID pageID s).1 =
          ((d.UnmarshalDetail
            (api.makeRequest "GET" ("/zones/" ++ zoneID ++ "/custom_pages/" ++ pageID)
              none s).1.1 {}).1.Result, none))) ∧
    (((UpdateCustomPage api d zoneID pageID page s).1.2 ≠ none ↔
        ((api.makeRequest "PUT" ("/zones/" ++ zoneID ++ "/custom_pages/" ++ pageID)
            (some page) s).1.2 ≠ none ∨
          (d.UnmarshalDetail
            (api.makeRequest "PUT" ("/zones/" ++ zoneID ++ "/custom_pages/" ++ pageID)
              (some page) s).1.1 {}).2 ≠ none)) ∧
      ((api.makeRequest "PUT" ("/zones/" ++ zoneID ++ "/custom_pages/" ++ pageID)
          (some page) s).1.2 = none →
        (d.UnmarshalDetail
          (api.makeRequest "PUT" ("/zones/" ++ zoneID ++ "/custom_pages/" ++ pageID)
            (some page) s).1.1 {}).2 = none →
        (UpdateCustomPage api d zoneID pageID page s).1 =
          ((d.UnmarshalDetail
            (api.makeRequest "PUT" ("/zones/" ++ zoneID ++ "/custom_pages/" ++ pageID)
              (some page) s).1.1 {}).1.Result, none))) := by
  refine ⟨⟨?_, fun h h2 => ?_⟩, ⟨?_, fun h h2 => ?_⟩, ⟨?_, fun h h2 => ?_⟩⟩
  · rw [ListCustomPages_eq]; split <;> [skip; split] <;> simp_all
  · rw [ListCustomPages_eq]; simp only [h, h2]
  · rw [CustomPageDetails_eq]; split <;> [skip; split] <;> simp_all
  · rw [CustomPageDetails_eq]; simp only [h, h2]
  · rw [UpdateCustomPage_eq]; split <;> [skip; split] <;> simp_all
  · rw [UpdateCustomPage_eq]; simp only [h, h2]

/-- C6, at a request helper and decoders that succeed: the methods return the decoded
`Result`, the two pages of the list in their order, with a nil error. -/
theorem error_iff_failure_witness :
    (ListCustomPages okAPI okDeps "z1" ()).1 = ([samplePage, otherPage], none) ∧
    (CustomPageDetails okAPI okDeps "z1" "p1" ()).1 = (samplePage, none) ∧
    (UpdateCustomPage okAPI okDeps "z1" "p1" otherPage ()).1 = (samplePage, none) :=
  ⟨(error_iff_failure okAPI okDeps "z1" "p1" otherPage ()).1.2 rfl rfl,
   (error_iff_failure okAPI okDeps "z1" "p1" otherPage ()).2.1.2 rfl rfl,
   (error_iff_failure okAPI okDeps "z1" "p1" otherPage ()).2.2.2 rfl rfl⟩

/-- C7: when the request helper succeeds and the bytes decode, without error, to an envelope
with `Success = false` and a non-empty `Errors` list, each of the three methods returns the
envelope's `Result` with a nil error; and two decoders that succeed with the same `Result`,
whatever their `Success`, `Errors` and `Messages`, give the same outcome. -/
theorem api_failure_not_an_error {σ : Type} (api : API σ) (d d' : Deps) (zoneID pageID : String)
    (page : CustomPage) (s : σ) :
    ((api.makeRequest "GET" ("/zones/" ++ zoneID ++ "/custom_pages") none s).1.2 = none →
      (d.UnmarshalPages
        (api.makeRequest "GET" ("/zones/" ++ zoneID ++ "/custom_pages") none s).1.1 {}).2
        = none →
      (((d.UnmarshalPages
          (api.makeRequest "GET" ("/zones/" ++ zoneID ++ "/custom_pages") none s).1.1
          {}).1.Success = false →
        (d.UnmarshalPages
          (api.makeRequest "GET" ("/zones/" ++ zoneID ++ "/custom_pages") none s).1.1
          {}).1.Errors ≠ [] →
        (ListCustomPages api d zoneID s).1 =
          ((d.UnmarshalPages
            (api.makeRequest "GET" ("/zones/" ++ zoneID ++ "/custom_pages") none s).1.1
            {}).1.Result, none)) ∧
       ((d'.UnmarshalPages
          (api.makeRequest "GET" ("/zones/" ++ zoneID ++ "/custom_pages") none s).1.1 {}).2
          = none →
        (d'.UnmarshalPages
          (api.makeRequest "GET" ("/zones/" ++ zoneID ++ "/custom_pages") none s).1.1
          {}).1.Result =
        (d.UnmarshalPages
          (api.makeRequest "GET" ("/zones/" ++ zoneID ++ "/custom_pages") none s).1.1
          {}).1.Result →
        ListCustomPages api d' zoneID s = ListCustomPages api d zoneID s))) ∧
    ((api.makeRequest "GET" ("/zones/" ++ zoneID ++ "/custom_pages/" ++ pageID) none s).1.2
        = none →
      (d.UnmarshalDetail
        (api.makeRequest "GET" ("/zones/" ++ zoneID ++ "/custom_pages/" ++ pageID) none s).1.1
        {}).2 = none →
      (((d.UnmarshalDetail
          (api.makeRequest "GET" ("/zones/" ++ zoneID ++ "/custom_pages/" ++ pageID)
            none s).1.1 {}).1.Success = false →
        (d.UnmarshalDetail
          (api.makeRequest "GET" ("/zones/" ++ zoneID ++ "/custom_pages/" ++ pageID)
            none s).1.1 {}).1.Errors ≠ [] →
        (CustomPageDetails api d zoneID pageID s).1 =
          ((d.UnmarshalDetail
            (api.makeRequest "GET" ("/zones/" ++ zoneID ++ "/custom_pages/" ++ pageID)
              none s).1.1 {}).1.Result, none)) ∧
       ((d'.UnmarshalDetail
          (api.makeRequest "GET" ("/zones/" ++ zoneID ++ "/custom_pages/" ++ pageID)
            none s).1.1 {}).2 = none →
        (d'.UnmarshalDetail
          (api.makeRequest "GET" ("/zones/" ++ zoneID ++ "/custom_pages/" ++ pageID)
            none s).1.1 {}).1.Result =
        (d.UnmarshalDetail
          (api.makeRequest "GET" ("/zones/" ++ zoneID ++ "/custom_pages/" ++ pageID)
            none s).1.1 {}).1.Result →
        CustomPageDetails api d' zoneID pageID s = CustomPageDetails api d zoneID pageID s))) ∧
    ((api.makeRequest "PUT" ("/zones/" ++ zoneID ++ "/custom_pages/" ++ pageID) (some page) s).1.2
        = none →
      (d.UnmarshalDetail
        (api.makeRequest "PUT" ("/zones/" ++ zoneID ++ "/custom_pages/" ++ pageID)
          (some page) s).1.1 {}).2 = none →
      (((d.UnmarshalDetail
          (api.makeRequest "PUT" ("/zones/" ++ zoneID ++ "/custom_pages/" ++ pageID)
            (some page) s).1.1 {}).1.Success = false →
        (d.UnmarshalDetail
          (api.makeRequest "PUT" ("/zones/" ++ zoneID ++ "/custom_pages/" ++ pageID)
            (some page) s).1.1 {}).1.Errors ≠ [] →
        (UpdateCustomPage api d zoneID pageID page s).1 =
          ((d.UnmarshalDetail
            (api.makeRequest "PUT" ("/zones/" ++ zoneID ++ "/custom_pages/" ++ pageID)
              (some page) s).1.1 {}).1.Result, none)) ∧
       ((d'.UnmarshalDetail
          (api.makeRequest "PUT" ("/zones/" ++ zoneID ++ "/custom_pages/" ++ pageID)
            (some page) s).1.1 {}).2 = none →
        (d'.UnmarshalDetail
          (api.makeRequest "PUT" ("/zones/" ++ zoneID ++ "/custom_pages/" ++ pageID)
            (some page) s).1.1 {}).1.Result =
        (d.UnmarshalDetail
          (api.makeRequest "PUT" ("/zones/" ++ zoneID ++ "/custom_pages/" ++ pageID)
            (some page) s).1.1 {}).1.Result →
        UpdateCustomPage api d' zoneID pageID page s =
          UpdateCustomPage api d zoneID pageID page s))) := by
  refine ⟨fun h h2 => ⟨fun _ _ => ?_, fun h3 h4 => ?_⟩,
    fun h h2 => ⟨fun _ _ => ?_, fun h3 h4 => ?_⟩,
    fun h h2 => ⟨fun _ _ => ?_, fun h3 h4 => ?_⟩⟩
  · rw [ListCustomPages_eq]; simp only [h, h2]
  · rw [ListCustomPages_eq, ListCustomPages_eq]; simp only [h, h2, h3, h4]
  · rw [CustomPageDetails_eq]; simp only [h, h2]
  · rw [CustomPageDetails_eq, CustomPageDetails_eq]; simp only [h, h2, h3, h4]
  · rw [UpdateCustomPage_eq]; simp only [h, h2]
  · rw [UpdateCustomPage_eq, UpdateCustomPage_eq]; simp only [h, h2, h3, h4]

/-- C7, at decoders producing `Success = false` and `Errors = ["denied"]`: the `Result` is
returned with a nil error, and decoders producing `Success = true` and no errors give the same
outcome. -/
theorem api_failure_not_an_error_witness :
    ((ListCustomPages okAPI okDeps "z1" ()).1 = ([samplePage, otherPage], none) ∧
      ListCustomPages okAPI cleanDeps "z1" () = ListCustomPages okAPI okDeps "z1" ()) ∧
    ((CustomPageDetails okAPI okDeps "z1" "p1" ()).1 = (samplePage, none) ∧
      CustomPageDetails okAPI cleanDeps "z1" "p1" () =
        CustomPageDetails okAPI okDeps "z1" "p1" ()) ∧
    ((UpdateCustomPage okAPI okDeps "z1" "p1" otherPage ()).1 = (samplePage, none) ∧
      UpdateCustomPage okAPI cleanDeps "z1" "p1" otherPage () =
        UpdateCustomPage okAPI okDeps "z1" "p1" otherPage ()) :=
  ⟨⟨((api_failure_not_an_error okAPI okDeps cleanDeps "z1" "p1" otherPage ()).1 rfl rfl).1
      rfl (List.cons_ne_nil _ _),
    ((api_failure_not_an_error okAPI okDeps cleanDeps "z1" "p1" otherPage ()).1 rfl rfl).2
      rfl rfl⟩,
   ⟨((api_failure_not_an_error okAPI okDeps cleanDeps "z1" "p1" otherPage ()).2.1 rfl rfl).1
      rfl (List.cons_ne_nil _ _),
    ((api_failure_not_an_error okAPI okDeps cleanDeps "z1" "p1" otherPage ()).2.1 rfl rfl).2
      rfl rfl⟩,
   ⟨((api_failure_not_an_error okAPI okDeps cleanDeps "z1" "p1" otherPage ()).2.2 rfl rfl).1
      rfl (List.cons_ne_nil _ _),
    ((api_failure_not_an_error okAPI okDeps cleanDeps "z1" "p1" otherPage ()).2.2 rfl rfl).2
      rfl rfl⟩⟩

/-! ## URI construction -/

/-- C9: identifiers enter the URI verbatim, so URI construction is not injective. The pairs
`("a", "b/custom_pages/c")` and `("a/custom_pages/b", "c")` differ, yet for each of them
`CustomPageDetails` makes exactly the request `GET /zones/a/custom_pages/b/custom_pages/c` with
no body, and `UpdateCustomPage` makes exactly the request `PUT` to that same URI with the page
as body. With the empty page identifier `CustomPageDetails` requests
`"/zones/" ++ zoneID ++ "/custom_pages" ++ "/"`, the URI `ListCustomPages` requests for that zone
followed by `"/"`. -/
theorem uri_not_injective :
    (("a", "b/custom_pages/c") : String × String) ≠ ("a/custom_pages/b", "c") ∧
    (∀ (σ : Type) (api : API σ) (d : Deps) (s : σ) (log : List Call),
      (CustomPageDetails api.recording d "a" "b/custom_pages/c" (s, log)).2.2 =
          log ++ [{ verb := "GET", uri := "/zones/a/custom_pages/b/custom_pages/c",
                    body := none }] ∧
        (CustomPageDetails api.recording d "a/custom_pages/b" "c" (s, log)).2.2 =
          log ++ [{ verb := "GET", uri := "/zones/a/custom_pages/b/custom_pages/c",
                    body := none }]) ∧
    (∀ (σ : Type) (api : API σ) (d : Deps) (page : CustomPage) (s : σ) (log : List Call),
      (UpdateCustomPage api.recording d "a" "b/custom_pages/c" page (s, log)).2.2 =
          log ++ [{ verb := "PUT", uri := "/zones/a/custom_pages/b/custom_pages/c",
                    body := some page }] ∧
        (UpdateCustomPage api.recording d "a/custom_pages/b" "c" page (s, log)).2.2 =
          log ++ [{ verb := "PUT", uri := "/zones/a/custom_pages/b/custom_pages/c",
                    body := some page }]) ∧
    (∀ (σ : Type) (api : API σ) (d : Deps) (zoneID : String) (s : σ) (log : List Call),
      (ListCustomPages api.recording d zoneID (s, log)).2.2 =
          log ++ [{ verb := "GET", uri := "/zones/" ++ zoneID ++ "/custom_pages",
                    body := none }] ∧
        (CustomPageDetails api.recording d zoneID "" (s, log)).2.2 =
          log ++ [{ verb := "GET", uri := "/zones/" ++ zoneID ++ "/custom_pages" ++ "/",
                    body := none }]) := by
  refine ⟨by decide, fun σ api d s log => ⟨?_, ?_⟩, fun σ api d page s log => ⟨?_, ?_⟩,
    fun σ api d zoneID s log => ⟨?_, ?_⟩⟩
  · rw [CustomPageDetails_log]; rfl
  · rw [CustomPageDetails_log]; rfl
  · rw [UpdateCustomPage_log]; rfl
  · rw [UpdateCustomPage_log]; rfl
  · rw [ListCustomPages_log]
  · rw [CustomPageDetails_log]
    simp [String.append_assoc]

/-! ## Independence from the page argument -/

/-- C10: the value returned by `UpdateCustomPage` depends on the page argument only through
what the request helper returns. If two calls, with any two pages, get the same outcome from
the helper (the same error, or no error and the same bytes) they return the same
`(CustomPage, error)` pair; and if the `GET` of `CustomPageDetails` and the `PUT` of
`UpdateCustomPage` get the same outcome, the two methods return the same pair. -/
theorem update_result_from_outcome {σ : Type} (api : API σ) (d : Deps) (zoneID pageID : String)
    (p1 p2 : CustomPage) (s1 s2 : σ) :
    ((api.makeRequest "PUT" ("/zones/" ++ zoneID ++ "/custom_pages/" ++ pageID) (some p1) s1).1.2 =
        (api.makeRequest "PUT" ("/zones/" ++ zoneID ++ "/custom_pages/" ++ pageID)
          (some p2) s2).1.2 →
      ((api.makeRequest "PUT" ("/zones/" ++ zoneID ++ "/custom_pages/" ++ pageID)
          (some p1) s1).1.2 = none →
        (api.makeRequest "PUT" ("/zones/" ++ zoneID ++ "/custom_pages/" ++ pageID)
          (some p1) s1).1.1 =
        (api.makeRequest "PUT" ("/zones/" ++ zoneID ++ "/custom_pages/" ++ pageID)
          (some p2) s2).1.1) →
      (UpdateCustomPage api d zoneID pageID p1 s1).1 =
        (UpdateCustomPage api d zoneID pageID p2 s2).1) ∧
    ((api.makeRequest "GET" ("/zones/" ++ zoneID ++ "/custom_pages/" ++ pageID) none s1).1.2 =
        (api.makeRequest "PUT" ("/zones/" ++ zoneID ++ "/custom_pages/" ++ pageID)
          (some p2) s2).1.2 →
      ((api.makeRequest "GET" ("/zones/" ++ zoneID ++ "/custom_pages/" ++ pageID) none s1).1.2
          = none →
        (api.makeRequest "GET" ("/zones/" ++ zoneID ++ "/custom_pages/" ++ pageID) none s1).1.1 =
        (api.makeRequest "PUT" ("/zones/" ++ zoneID ++ "/custom_pages/" ++ pageID)
          (some p2) s2).1.1) →
      (CustomPageDetails api d zoneID pageID s1).1 =
        (UpdateCustomPage api d zoneID pageID p2 s2).1) := by
  refine ⟨fun h h2 => ?_, fun h h2 => ?_⟩
  · rw [UpdateCustomPage_eq, UpdateCustomPage_eq]
    rw [← h]
    cases h3 : (api.makeRequest "PUT" ("/zones/" ++ zoneID ++ "/custom_pages/" ++ pageID)
        (some p1) s1).1.2 with
    | some e => rfl
    | none =>
      rw [← h2 h3]
      simp only
      split <;> rfl
  · rw [CustomPageDetails_eq, UpdateCustomPage_eq]
    rw [← h]
    cases h3 : (api.makeRequest "GET" ("/zones/" ++ zoneID ++ "/custom_pages/" ++ pageID)
        none s1).1.2 with
    | some e => rfl
    | none =>
      rw [← h2 h3]
      simp only
      split <;> rfl

/-- C10, at a request helper that answers every call with the same bytes: updating with two
different pages returns the same pair, which is also the pair `CustomPageDetails` returns. -/
theorem update_result_from_outcome_witness :
    samplePage ≠ otherPage ∧
    (UpdateCustomPage okAPI okDeps "z1" "p1" samplePage ()).1 =
      (UpdateCustomPage okAPI okDeps "z1" "p1" otherPage ()).1 ∧
    (CustomPageDetails okAPI okDeps "z1" "p1" ()).1 =
      (UpdateCustomPage okAPI okDeps "z1" "p1" otherPage ()).1 :=
  ⟨by decide,
   (update_result_from_outcome okAPI okDeps "z1" "p1" samplePage otherPage () ()).1
      rfl (fun _ => rfl),
   (update_result_from_outcome okAPI okDeps "z1" "p1" samplePage otherPage () ()).2
      rfl (fun _ => rfl)⟩

end Cloudflare
